import Mathlib

/-!
Verification of the rueckenwind HTTP request-handling layer
(`rw/httpbase.py`): the `RequestHandler` response state machine
(write buffer, header generation, flush, finish, ETag/304 handling)
and the `_execute` dispatch sequence (method validation, XSRF check,
prepare hook, routing hand-off, exception boundary).

Byte strings (chunks, header blocks, transport writes) are modelled as
Lean `String`s; the byte length of a chunk is its `String.length`,
which agrees with Python `len` on the byte strings appearing here.
Header mappings are association lists of (normalized-name, value)
pairs with unique keys, matching tornado HTTPHeaders semantics for
the operations used (get, membership, set, delete).

Genuinely external behaviour is parameterized rather than stubbed:
the ETag hash (`compute_etag`, a SHA1 hex digest in the wrapped
framework) is an arbitrary function `g` of the buffered chunks, the
outcome of the external XSRF cookie validation is a boolean input,
and the user-overridable prepare hook and routing collaborator are
given by their outcome (normal return or raised error).
-/

namespace Rw

/-- Errors raised by the modelled code paths.  `DoubleFinishError` is the
spec taxonomy name for the `RuntimeError("finish() called twice...")`
raised at the top of `finish`; `AssertionError` is the
`assert not self._write_buffer` failure on a 304 with a body;
`HTTPError c` is tornado `HTTPError(c)`; `XSRFError` is the wrapped
framework standard XSRF failure raised by `check_xsrf_cookie`. -/
inductive Err where
  | DoubleFinishError
  | AssertionError
  | HTTPError (code : Nat)
  | XSRFError
  | UserError (tag : Nat)
  deriving DecidableEq, Repr

/-- A response transform stage, as used by tornado output transforms:
`transform_first_chunk` receives and may rewrite (status, headers, chunk)
on the first flush; `transform_chunk` rewrites later chunks. -/
structure Transform where
  transform_first_chunk : Nat → List (String × String) → String → Bool →
    Nat × List (String × String) × String
  transform_chunk : String → Bool → String

/-- Per-request handler state: the rueckenwind `RequestHandler` fields
together with the observable transport effects (`writes` is the ordered
list of byte strings passed to `request.write`; `request_finished`
records that `request.finish()` was called). -/
structure Handler where
  method : String
  version : String
  request_headers : List (String × String)
  status_code : Nat
  reason : String
  headers : List (String × String)
  write_buffer : List String
  headers_written : Bool
  finished : Bool
  auto_finish : Bool
  transforms : List Transform
  writes : List String
  request_finished : Bool

/-- Header lookup (`headers.get(name)`); names are stored normalized. -/
def headerGet (hs : List (String × String)) (name : String) : Option String :=
  (hs.find? (fun p => p.1 == name)).map Prod.snd

/-- Header membership (`name in headers`). -/
def headerContains (hs : List (String × String)) (name : String) : Bool :=
  (hs.find? (fun p => p.1 == name)).isSome

/-- Header assignment (`headers[name] = value`): replaces the existing
entry for `name` or appends a new one. -/
def setHeader (hs : List (String × String)) (name value : String) :
    List (String × String) :=
  if headerContains hs name then
    hs.map (fun p => if p.1 == name then (name, value) else p)
  else
    hs ++ [(name, value)]

/-- Header deletion (`clear_header`). -/
def delHeader (hs : List (String × String)) (name : String) :
    List (String × String) :=
  hs.filter (fun p => !(p.1 == name))

/-- Reason phrases from `httputil.responses` for the status codes used. -/
def httpReason (code : Nat) : String :=
  if code == 200 then "OK"
  else if code == 304 then "Not Modified"
  else if code == 405 then "Method Not Allowed"
  else "Unknown"

/-- tornado `RequestHandler.set_status`: stores the code and its reason. -/
def set_status (h : Handler) (code : Nat) : Handler :=
  { h with status_code := code, reason := httpReason code }

/-- tornado `RequestHandler._generate_headers`: status line followed by
one `name: value` line per header, joined with CRLF and terminated by a
blank line.  (No cookies are modelled; `_new_cookie` is never set on
these paths.) -/
def generate_headers (version : String) (status : Nat) (reason : String)
    (hs : List (String × String)) : String :=
  String.intercalate "\r\n"
    ((version ++ " " ++ toString status ++ " " ++ reason) ::
      hs.map (fun p => p.1 ++ ": " ++ p.2)) ++ "\r\n\r\n"

/-- Whether the character list starts with the given pattern. -/
def charsStartsWith : List Char → List Char → Bool
  | _, [] => true
  | [], _ :: _ => false
  | a :: as, b :: bs => a == b && charsStartsWith as bs

/-- Whether the pattern occurs as a contiguous sublist. -/
def charsContain (pat : List Char) : List Char → Bool
  | [] => charsStartsWith [] pat
  | a :: as => charsStartsWith (a :: as) pat || charsContain pat as

/-- Python `s.find(pat) >= 0`: substring occurrence test. -/
def strContains (s pat : String) : Bool :=
  charsContain pat.data s.data

/-- tornado `RequestHandler.set_etag_header`: computes the ETag of the
buffered chunks (via the hash parameter `g`, standing for the SHA1-based
`compute_etag`, which always returns a string) and stores it under
`Etag`. -/
def set_etag_header (g : List String → String) (h : Handler) : Handler :=
  { h with headers := setHeader h.headers "Etag" (g h.write_buffer) }

/-- tornado `RequestHandler.check_etag_header`: true when both the
response `Etag` header and the request `If-None-Match` header are
non-empty and the former occurs inside the latter. -/
def check_etag_header (h : Handler) : Bool :=
  let etag := (headerGet h.headers "Etag").getD ""
  let inm := (headerGet h.request_headers "If-None-Match").getD ""
  !(etag == "") && !(inm == "") && strContains inm etag

/-- Headers a 304 response must not carry, per tornado
`_clear_headers_for_304`. -/
def headers_304_disallowed : List String :=
  ["Allow", "Content-Encoding", "Content-Language", "Content-Length",
   "Content-MD5", "Content-Range", "Content-Type", "Last-Modified"]

/-- tornado `RequestHandler._clear_headers_for_304`: removes each
disallowed header. -/
def clear_headers_for_304 (hs : List (String × String)) :
    List (String × String) :=
  headers_304_disallowed.foldl delHeader hs

/-- The transport write at the end of `flush`: for a HEAD request the
body chunk is ignored and the header block is written only when
non-empty (`if headers:`); otherwise headers and chunk are written as
one byte string. -/
def writeOut (h : Handler) (headers chunk : String) : Handler :=
  if h.method == "HEAD" then
    if headers == "" then h
    else { h with writes := h.writes ++ [headers] }
  else
    { h with writes := h.writes ++ [headers ++ chunk] }

/-- rueckenwind `RequestHandler.flush` (httpbase.py lines 115 to 144):
concatenates and clears the write buffer; on the first flush marks
headers written, runs each transform `transform_first_chunk` over
(status, headers, chunk) and generates the header block, otherwise runs
`transform_chunk` and uses an empty header block; then performs the
transport write (`writeOut`).  The flow-control callback argument has
no effect on the modelled state and is omitted. -/
def flush (h : Handler) (include_footers : Bool) : Handler :=
  let chunk := String.join h.write_buffer
  let h0 : Handler := { h with write_buffer := [] }
  if !h0.headers_written then
    let h1 : Handler := { h0 with headers_written := true }
    let r := h1.transforms.foldl
      (fun acc t => t.transform_first_chunk acc.1 acc.2.1 acc.2.2 include_footers)
      (h1.status_code, h1.headers, chunk)
    let h2 : Handler := { h1 with status_code := r.1, headers := r.2.1 }
    let headers := generate_headers h2.version h2.status_code h2.reason h2.headers
    writeOut h2 headers r.2.2
  else
    let chunk2 := h0.transforms.foldl
      (fun c t => t.transform_chunk c include_footers) chunk
    writeOut h0 "" chunk2

/-- The (status, headers, chunk) triple after the first-flush transform
pipeline runs. -/
def firstChunkFold (h : Handler) (inc : Bool) :
    Nat × List (String × String) × String :=
  h.transforms.foldl
    (fun acc t => t.transform_first_chunk acc.1 acc.2.1 acc.2.2 inc)
    (h.status_code, h.headers, String.join h.write_buffer)

/-- The tail of `finish` after the header fix-ups: clears the connection
close callback (no modelled state), flushes with footers included,
calls `request.finish()`, and marks the handler finished.  The `_log`
and `on_finish` hooks have no modelled effect. -/
def finishTail (h : Handler) : Handler :=
  let h1 := flush h true
  { h1 with request_finished := true, finished := true }

/-- rueckenwind `RequestHandler.finish` (httpbase.py lines 146 to 184):
raises `DoubleFinishError` if already finished; appends the optional
final chunk via `write`; if headers are not yet written, runs the
ETag/304/Content-Length fix-ups (set an ETag for a 200 GET/HEAD response
without one, switch to 304 on a conditional match clearing the buffer;
on 304 assert the buffer is empty and strip disallowed headers;
otherwise default Content-Length to the byte sum of the buffer); then
flushes, finishes the request and marks the handler finished.  `g`
stands for the external `compute_etag` hash. -/
def finish (g : List String → String) (h : Handler) (chunk : Option String) :
    Except Err Handler :=
  if h.finished then .error .DoubleFinishError
  else
    let h1 : Handler := match chunk with
      | some c => { h with write_buffer := h.write_buffer ++ [c] }
      | none => h
    if h1.headers_written then .ok (finishTail h1)
    else
      let h2 : Handler :=
        if h1.status_code == 200 && (h1.method == "GET" || h1.method == "HEAD")
            && !(headerContains h1.headers "Etag") then
          let he := set_etag_header g h1
          if check_etag_header he then
            set_status { he with write_buffer := [] } 304
          else he
        else h1
      if h2.status_code == 304 then
        if h2.write_buffer.isEmpty then
          .ok (finishTail { h2 with headers := clear_headers_for_304 h2.headers })
        else .error .AssertionError
      else
        let h3 : Handler :=
          if headerContains h2.headers "Content-Length" then h2
          else
            { h2 with headers := setHeader h2.headers "Content-Length" (toString ((h2.write_buffer.map String.length).sum)) }
        .ok (finishTail h3)

/-- The rueckenwind `RequestHandler` constructor (httpbase.py lines 66
to 80): skips the tornado base constructor, stores the request data,
clears the written/finished flags, disables auto-finish (vanilla
tornado defaults to True), and runs tornado `clear()`, which installs
the default Server/Content-Type/Date headers, empties the write buffer
and resets the status to 200 OK.  `_transforms` is `None` until
`_execute` assigns it and is modelled as the empty list; the
HTTP/1.0 keep-alive Connection header branch of `clear()` depends on
the external connection object and is not taken here; the
user-overridable `initialize()` hook is a no-op by default. -/
def requestHandlerNew (method version : String)
    (request_headers : List (String × String)) (server date : String) :
    Handler :=
  { method := method
    version := version
    request_headers := request_headers
    status_code := 200
    reason := "OK"
    headers := [("Server", server),
                ("Content-Type", "text/html; charset=UTF-8"),
                ("Date", date)]
    write_buffer := []
    headers_written := false
    finished := false
    auto_finish := false
    transforms := []
    writes := []
    request_finished := false }

/-- Inputs of one `_execute` run: the request method, the handler class
`SUPPORTED_METHODS`, the application `xsrf_cookies` setting, the
outcome of the external tornado `check_xsrf_cookie` validation
(`xsrf_valid = false` means the cookie/token is absent or mismatched
and the check raises), and the outcomes of the user `prepare()` hook
and of the routing collaborator `root._handle_request` (`none` means
normal return, `some e` means the call raises `e`). -/
structure ExecEnv where
  method : String
  supported_methods : List String
  xsrf_cookies : Bool
  xsrf_valid : Bool
  prepare_error : Option Err
  handle_request_error : Option Err
  deriving DecidableEq, Repr

/-- Observable events of an `_execute` run, in order: the `prepare()`
hook was invoked, the routing collaborator `root._handle_request` was
invoked (via `_execute_method`), and `_handle_request_exception` was
invoked with a caught error. -/
inductive Event where
  | prepareCalled
  | handleRequestCalled
  | exceptionHandled (e : Err)
  deriving DecidableEq, Repr

/-- The body of the `try` block of `_execute` (httpbase.py lines 198 to
207): raise `HTTPError 405` when the method is unsupported; for a
body-bearing method with `xsrf_cookies` enabled, run the XSRF check and
raise on failure; then call `prepare()` and, on its normal (None)
return, `_when_complete` synchronously invokes `_execute_method`,
which calls `root._handle_request`.  Returns the events that occurred
and the error raised, if any. -/
def executeTry (env : ExecEnv) : List Event × Option Err :=
  if !env.supported_methods.contains env.method then
    ([], some (.HTTPError 405))
  else if !(["GET", "HEAD", "OPTIONS"].contains env.method)
      && env.xsrf_cookies && !env.xsrf_valid then
    ([], some .XSRFError)
  else
    match env.prepare_error with
    | some e => ([.prepareCalled], some e)
    | none =>
      match env.handle_request_error with
      | some e => ([.prepareCalled, .handleRequestCalled], some e)
      | none => ([.prepareCalled, .handleRequestCalled], none)

/-- rueckenwind `RequestHandler._execute` (httpbase.py lines 195 to
209): runs the try-block sequence; any exception it raises is caught
and routed to `_handle_request_exception`. -/
def execute (env : ExecEnv) : List Event :=
  match executeTry env with
  | (evs, some e) => evs ++ [.exceptionHandled e]
  | (evs, none) => evs

/-- One operation on a handler in the response lifecycle: a `flush`
with the given `include_footers`, or a `finish` with the given
optional final chunk. -/
inductive Op where
  | flushOp (include_footers : Bool)
  | finishOp (chunk : Option String)

/-- Whether the operation is a `finish`. -/
def Op.isFinish : Op → Bool
  | .flushOp _ => false
  | .finishOp _ => true

/-- Apply one operation to a handler; `finish` may raise. -/
def applyOp (g : List String → String) (h : Handler) : Op → Except Err Handler
  | .flushOp inc => .ok (flush h inc)
  | .finishOp c => finish g h c

/-- Run a sequence of flush/finish operations; the run fails at the
first operation that raises. -/
def runOps (g : List String → String) (h : Handler) :
    List Op → Except Err Handler
  | [] => .ok h
  | op :: ops =>
    match applyOp g h op with
    | .error e => .error e
    | .ok h1 => runOps g h1 ops

/-- A convenient concrete handler for witnesses: a fresh GET handler. -/
def witnessHandler : Handler :=
  requestHandlerNew "GET" "HTTP/1.1" [] "TornadoServer/rw" "D"

/-- The handler obtained by finishing `witnessHandler` once. -/
def witnessFinished : Handler :=
  ((finish (fun _ => "T") witnessHandler none).toOption).getD witnessHandler

/-- A GET handler whose If-None-Match request header matches the ETag
the witness hash computes. -/
def etagMatchHandler : Handler :=
  requestHandlerNew "GET" "HTTP/1.1" [("If-None-Match", "T")]
    "TornadoServer/rw" "D"

/-- A GET handler with two buffered chunks, for the Content-Length
scenario. -/
def contentLengthHandler : Handler :=
  { witnessHandler with write_buffer := ["ab", "cd"] }

/-- The lifecycle witness operation sequence: one finish then one
flush. -/
def lifecycleOps : List Op := [Op.finishOp none, Op.flushOp true]

/-- The handler after running `lifecycleOps` on `witnessHandler`. -/
def lifecycleResult : Handler :=
  (runOps (fun _ => "T") witnessHandler lifecycleOps).toOption.getD
    witnessHandler

/-- The `finished` flag after a successful run, if the run succeeds. -/
def finishedAfter (g : List String → String) (h : Handler) (ops : List Op) :
    Option Bool :=
  (runOps g h ops).toOption.map Handler.finished

/-- The `headers_written` flag after a successful run. -/
def headersWrittenAfter (g : List String → String) (h : Handler)
    (ops : List Op) : Option Bool :=
  (runOps g h ops).toOption.map Handler.headers_written

/-- The write buffer after a successful run. -/
def bufferAfter (g : List String → String) (h : Handler) (ops : List Op) :
    Option (List String) :=
  (runOps g h ops).toOption.map Handler.write_buffer

/-! Helper lemmas about the transport write and the flush/finish
state machine. -/

theorem writeOut_finished (h : Handler) (hdrs chunk : String) :
    (writeOut h hdrs chunk).finished = h.finished := by
  unfold writeOut
  split
  · split <;> rfl
  · rfl

theorem writeOut_headers_written (h : Handler) (hdrs chunk : String) :
    (writeOut h hdrs chunk).headers_written = h.headers_written := by
  unfold writeOut
  split
  · split <;> rfl
  · rfl

theorem writeOut_write_buffer (h : Handler) (hdrs chunk : String) :
    (writeOut h hdrs chunk).write_buffer = h.write_buffer := by
  unfold writeOut
  split
  · split <;> rfl
  · rfl

theorem writeOut_head_empty (h : Handler) (chunk : String)
    (hm : h.method = "HEAD") : writeOut h "" chunk = h := by
  unfold writeOut
  simp [hm]

theorem writeOut_head (h : Handler) (hdrs chunk : String)
    (hm : h.method = "HEAD") (hne : (hdrs == "") = false) :
    writeOut h hdrs chunk = { h with writes := h.writes ++ [hdrs] } := by
  unfold writeOut
  simp [hm, hne]

theorem writeOut_not_head (h : Handler) (hdrs chunk : String)
    (hm : (h.method == "HEAD") = false) :
    writeOut h hdrs chunk = { h with writes := h.writes ++ [hdrs ++ chunk] } := by
  unfold writeOut
  simp [hm]

theorem flush_of_headers_written (h : Handler) (inc : Bool)
    (hw : h.headers_written = true) :
    flush h inc =
      writeOut { h with write_buffer := [] } ""
        (h.transforms.foldl (fun c t => t.transform_chunk c inc)
          (String.join h.write_buffer)) := by
  unfold flush
  simp [hw]

theorem flush_of_headers_unwritten (h : Handler) (inc : Bool)
    (hw : h.headers_written = false) :
    flush h inc =
      writeOut
        { h with write_buffer := [], headers_written := true, status_code := (firstChunkFold h inc).1, headers := (firstChunkFold h inc).2.1 }
        (generate_headers h.version (firstChunkFold h inc).1 h.reason
          (firstChunkFold h inc).2.1)
        (firstChunkFold h inc).2.2 := by
  unfold flush firstChunkFold
  simp [hw]

theorem flush_finished (h : Handler) (inc : Bool) :
    (flush h inc).finished = h.finished := by
  by_cases hw : h.headers_written
  · rw [flush_of_headers_written h inc hw, writeOut_finished]
  · rw [flush_of_headers_unwritten h inc (by simpa using hw), writeOut_finished]


theorem flush_headers_written_true (h : Handler) (inc : Bool) :
    (flush h inc).headers_written = true := by
  by_cases hw : h.headers_written
  · rw [flush_of_headers_written h inc hw, writeOut_headers_written]
    exact hw
  · rw [flush_of_headers_unwritten h inc (by simpa using hw),
      writeOut_headers_written]

theorem flush_write_buffer (h : Handler) (inc : Bool) :
    (flush h inc).write_buffer = [] := by
  by_cases hw : h.headers_written
  · rw [flush_of_headers_written h inc hw, writeOut_write_buffer]
  · rw [flush_of_headers_unwritten h inc (by simpa using hw),
      writeOut_write_buffer]

theorem finishTail_finished (h : Handler) : (finishTail h).finished = true := rfl

theorem finishTail_headers_written (h : Handler) :
    (finishTail h).headers_written = true := by
  show (flush h true).headers_written = true
  exact flush_headers_written_true h true

theorem finishTail_write_buffer (h : Handler) :
    (finishTail h).write_buffer = [] := by
  show (flush h true).write_buffer = []
  exact flush_write_buffer h true

theorem finish_some_eq (g : List String → String) (h : Handler) (c : String) :
    finish g h (some c) =
      finish g { h with write_buffer := h.write_buffer ++ [c] } none := rfl

theorem finish_none_ok_finished {g : List String → String} {h h1 : Handler}
    (hok : finish g h none = .ok h1) : h1.finished = true := by
  simp only [finish] at hok
  repeat' split at hok
  all_goals try exact Except.noConfusion hok
  all_goals exact Except.ok.inj hok ▸ finishTail_finished _

theorem finish_ok_finished {g : List String → String} {h h1 : Handler}
    {c : Option String} (hok : finish g h c = .ok h1) : h1.finished = true := by
  cases c with
  | none => exact finish_none_ok_finished hok
  | some ch => exact finish_none_ok_finished (finish_some_eq g h ch ▸ hok)

theorem generate_headers_ne_empty_str (v : String) (s : Nat) (r : String)
    (hs : List (String × String)) : generate_headers v s r hs ≠ "" := by
  intro heq
  have hlen := congrArg String.length heq
  rw [generate_headers, String.length_append] at hlen
  simp only [String.length_empty, Nat.add_eq_zero] at hlen
  exact absurd hlen.2 (by decide)

theorem generate_headers_ne_empty (v : String) (s : Nat) (r : String)
    (hs : List (String × String)) : (generate_headers v s r hs == "") = false :=
  beq_eq_false_iff_ne.mpr (generate_headers_ne_empty_str v s r hs)

/-! Association-list header lemmas. -/

theorem find_map_set_self (t : List (String × String)) (n v : String)
    (hcon : (t.find? (fun p => p.1 == n)).isSome = true) :
    (t.map (fun p => if p.1 == n then (n, v) else p)).find?
      (fun p => p.1 == n) = some (n, v) := by
  induction t with
  | nil => simp at hcon
  | cons p t ih =>
    by_cases hp : (p.1 == n) = true
    · have hpm : p.1 = n := by simpa using hp
      simp [List.find?_cons, hpm]
    · have hp' : (p.1 == n) = false := by simpa using hp
      simp only [List.find?_cons, List.map_cons, hp', Bool.false_eq_true,
        if_false, Option.isSome_some] at hcon ⊢
      exact ih hcon

theorem find_map_set_ne (t : List (String × String)) (n m v : String)
    (hnm : (m == n) = false) :
    (t.map (fun p => if p.1 == m then (m, v) else p)).find?
      (fun p => p.1 == n) = t.find? (fun p => p.1 == n) := by
  induction t with
  | nil => rfl
  | cons p t ih =>
    by_cases hp : (p.1 == m) = true
    · have hpm : p.1 = m := by simpa using hp
      have hpn : (p.1 == n) = false := by rw [hpm]; exact hnm
      simp only [List.find?_cons, List.map_cons, hp, if_true, hpn, hnm,
        Bool.false_eq_true, if_false]
      exact ih
    · have hp' : (p.1 == m) = false := by simpa using hp
      by_cases hpn : (p.1 == n) = true
      · simp only [List.find?_cons, List.map_cons, hp', Bool.false_eq_true,
          if_false, hpn]
      · have hpn' : (p.1 == n) = false := by simpa using hpn
        simp only [List.find?_cons, List.map_cons, hp', hpn',
          Bool.false_eq_true, if_false]
        exact ih

theorem find_filter_del (t : List (String × String)) (n m : String)
    (hnm : (m == n) = false) :
    ((t.filter (fun p => !(p.1 == m))).find? (fun p => p.1 == n)) =
      t.find? (fun p => p.1 == n) := by
  induction t with
  | nil => rfl
  | cons p t ih =>
    by_cases hp : (p.1 == m) = true
    · have hpm : p.1 = m := by simpa using hp
      have hpn : (p.1 == n) = false := by rw [hpm]; exact hnm
      simp only [List.filter_cons, List.find?_cons, hp, Bool.not_true,
        Bool.false_eq_true, if_false, hpn]
      exact ih
    · have hp' : (p.1 == m) = false := by simpa using hp
      by_cases hpn : (p.1 == n) = true
      · simp only [List.filter_cons, List.find?_cons, hp', Bool.not_false,
          if_true, hpn]
      · have hpn' : (p.1 == n) = false := by simpa using hpn
        simp only [List.filter_cons, List.find?_cons, hp', Bool.not_false,
          if_true, hpn', Bool.false_eq_true, if_false]
        exact ih

theorem find_filter_del_self (t : List (String × String)) (m : String) :
    ((t.filter (fun p => !(p.1 == m))).find? (fun p => p.1 == m)) = none := by
  induction t with
  | nil => rfl
  | cons p t ih =>
    by_cases hp : (p.1 == m) = true
    · simp only [List.filter_cons, hp, Bool.not_true, Bool.false_eq_true,
        if_false]
      exact ih
    · have hp' : (p.1 == m) = false := by simpa using hp
      simp only [List.filter_cons, List.find?_cons, hp', Bool.not_false,
        if_true, Bool.false_eq_true, if_false]
      exact ih

theorem headerGet_setHeader_self (hs : List (String × String)) (n v : String) :
    headerGet (setHeader hs n v) n = some v := by
  unfold setHeader headerContains headerGet
  split
  case isTrue hcon =>
    rw [find_map_set_self hs n v hcon]
    rfl
  case isFalse hcon =>
    rw [List.find?_append, Option.not_isSome_iff_eq_none.mp hcon,
      Option.none_or]
    simp [List.find?_cons]

theorem headerGet_setHeader_ne (hs : List (String × String)) (n m v : String)
    (hnm : (m == n) = false) :
    headerGet (setHeader hs m v) n = headerGet hs n := by
  unfold setHeader headerGet
  split
  case isTrue => rw [find_map_set_ne hs n m v hnm]
  case isFalse =>
    rw [List.find?_append]
    simp only [List.find?_cons, hnm, Bool.false_eq_true, if_false,
      List.find?_nil]
    cases hs.find? (fun p => p.1 == n) <;> rfl

theorem headerGet_delHeader_ne (hs : List (String × String)) (n m : String)
    (hnm : (m == n) = false) :
    headerGet (delHeader hs m) n = headerGet hs n := by
  unfold delHeader headerGet
  rw [find_filter_del hs n m hnm]

theorem headerContains_delHeader_self (hs : List (String × String))
    (m : String) : headerContains (delHeader hs m) m = false := by
  unfold delHeader headerContains
  rw [find_filter_del_self hs m]
  rfl

theorem headerContains_eq_isSome (hs : List (String × String)) (n : String) :
    headerContains hs n = (headerGet hs n).isSome := by
  unfold headerContains headerGet
  cases hs.find? (fun p => p.1 == n) <;> rfl

theorem headerContains_foldl_del (names : List String)
    (hs : List (String × String)) (n : String) (hn : n ∈ names) :
    headerContains (names.foldl delHeader hs) n = false := by
  induction names generalizing hs with
  | nil => cases hn
  | cons m t ih =>
    by_cases hmem : n ∈ t
    · simpa using ih (delHeader hs m) hmem
    · have hnm : n = m := by
        rcases List.mem_cons.mp hn with h1 | h1
        · exact h1
        · exact absurd h1 hmem
      subst hnm
      have hpres : ∀ t0 : List String, ¬n ∈ t0 →
          ∀ hs0 : List (String × String), headerContains hs0 n = false →
          headerContains (t0.foldl delHeader hs0) n = false := by
        intro t0 ht0 hs0 h0
        induction t0 generalizing hs0 with
        | nil => simpa using h0
        | cons m2 t2 ih2 =>
          have hne : (m2 == n) = false := by
            have hx : ¬n = m2 := fun heq => ht0 (by simp [heq])
            simpa using fun heq => hx heq.symm
          have ht2 : ¬n ∈ t2 := fun hx => ht0 (by simp [hx])
          refine ih2 ht2 (delHeader hs0 m2) ?_
          rw [headerContains_eq_isSome, headerGet_delHeader_ne _ _ _ hne,
            ← headerContains_eq_isSome]
          exact h0
      simpa using hpres t hmem (delHeader hs n)
        (headerContains_delHeader_self hs n)

theorem headerGet_foldl_del_notmem (names : List String)
    (hs : List (String × String)) (n : String) (hn : ¬n ∈ names) :
    headerGet (names.foldl delHeader hs) n = headerGet hs n := by
  induction names generalizing hs with
  | nil => rfl
  | cons m t ih =>
    have hne : (m == n) = false := by
      have hx : ¬n = m := fun heq => hn (by simp [heq])
      simpa using fun heq => hx heq.symm
    have hnt : ¬n ∈ t := fun hx => hn (by simp [hx])
    calc headerGet ((m :: t).foldl delHeader hs) n
        = headerGet (t.foldl delHeader (delHeader hs m)) n := rfl
      _ = headerGet (delHeader hs m) n := ih (delHeader hs m) hnt
      _ = headerGet hs n := headerGet_delHeader_ne hs n m hne

theorem headerContains_clear304 (hs : List (String × String)) (n : String)
    (hn : n ∈ headers_304_disallowed) :
    headerContains (clear_headers_for_304 hs) n = false :=
  headerContains_foldl_del headers_304_disallowed hs n hn

theorem headerGet_clear304_etag (hs : List (String × String)) :
    headerGet (clear_headers_for_304 hs) "Etag" = headerGet hs "Etag" :=
  headerGet_foldl_del_notmem headers_304_disallowed hs "Etag" (by decide)

theorem headerContains_setHeader_ne (hs : List (String × String))
    (n m v : String) (hnm : (m == n) = false) :
    headerContains (setHeader hs m v) n = headerContains hs n := by
  rw [headerContains_eq_isSome, headerGet_setHeader_ne hs n m v hnm,
    ← headerContains_eq_isSome]

theorem finishTail_spec (h : Handler) (ht : h.transforms = [])
    (hw : h.headers_written = false) :
    finishTail h = { h with
      write_buffer := [],
      headers_written := true,
      finished := true,
      request_finished := true,
      writes := h.writes ++ [if h.method == "HEAD" then generate_headers h.version h.status_code h.reason h.headers else generate_headers h.version h.status_code h.reason h.headers ++ String.join h.write_buffer] } := by
  unfold finishTail
  rw [flush_of_headers_unwritten h true hw]
  unfold firstChunkFold
  rw [ht]
  simp only [List.foldl_nil]
  unfold writeOut
  by_cases hm : (h.method == "HEAD") = true
  · simp only [hm, if_true,
      beq_eq_false_iff_ne.mpr (generate_headers_ne_empty_str h.version
        h.status_code h.reason h.headers), Bool.false_eq_true, if_false]
  · simp only [hm, Bool.false_eq_true, if_false]

theorem finish_etag_match (g : List String → String) (h : Handler)
    (hfin : h.finished = false) (hw : h.headers_written = false)
    (hcond : (h.status_code == 200 && (h.method == "GET" || h.method == "HEAD")
      && !(headerContains h.headers "Etag")) = true)
    (hc : check_etag_header (set_etag_header g h) = true) :
    finish g h none = .ok (finishTail { set_etag_header g h with
      write_buffer := [], status_code := 304, reason := httpReason 304,
      headers := clear_headers_for_304 (set_etag_header g h).headers }) := by
  simp only [finish, hfin, hw, hcond, hc, set_status, Bool.false_eq_true,
    if_false, if_true]
  simp [set_etag_header]

theorem finish_etag_nomatch (g : List String → String) (h : Handler)
    (hfin : h.finished = false) (hw : h.headers_written = false)
    (hcond : (h.status_code == 200 && (h.method == "GET" || h.method == "HEAD")
      && !(headerContains h.headers "Etag")) = true)
    (hc : check_etag_header (set_etag_header g h) = false)
    (hcl : headerContains h.headers "Content-Length" = false) :
    finish g h none = .ok (finishTail { set_etag_header g h with
      headers := setHeader (set_etag_header g h).headers "Content-Length"
        (toString ((h.write_buffer.map String.length).sum)) }) := by
  have hst : h.status_code = 200 := by
    have := hcond
    simp only [Bool.and_eq_true, beq_iff_eq] at this
    exact this.1.1
  have h304 : ((set_etag_header g h).status_code == 304) = false := by
    simp [set_etag_header, hst]
  have hclE : headerContains (set_etag_header g h).headers "Content-Length"
      = false := by
    unfold set_etag_header
    simpa using (headerContains_setHeader_ne h.headers "Content-Length"
      "Etag" (g h.write_buffer) (by decide)).trans hcl
  simp only [finish, hfin, hw, hcond, hc, Bool.false_eq_true, if_false,
    if_true, h304, hclE]
  simp [set_etag_header]

theorem finish_no_etag_branch (g : List String → String) (h : Handler)
    (hfin : h.finished = false) (hw : h.headers_written = false)
    (hcond : (h.status_code == 200 && (h.method == "GET" || h.method == "HEAD")
      && !(headerContains h.headers "Etag")) = false)
    (h304 : (h.status_code == 304) = false)
    (hcl : headerContains h.headers "Content-Length" = false) :
    finish g h none = .ok (finishTail { h with
      headers := setHeader h.headers "Content-Length"
        (toString ((h.write_buffer.map String.length).sum)) }) := by
  simp only [finish, hfin, hw, hcond, Bool.false_eq_true, if_false,
    if_true, h304, hcl]

theorem finish_etag_nomatch_cl (g : List String → String) (h : Handler)
    (hfin : h.finished = false) (hw : h.headers_written = false)
    (hcond : (h.status_code == 200 && (h.method == "GET" || h.method == "HEAD")
      && !(headerContains h.headers "Etag")) = true)
    (hc : check_etag_header (set_etag_header g h) = false)
    (hcl : headerContains h.headers "Content-Length" = true) :
    finish g h none = .ok (finishTail (set_etag_header g h)) := by
  have hst : h.status_code = 200 := by
    have := hcond
    simp only [Bool.and_eq_true, beq_iff_eq] at this
    exact this.1.1
  have h304 : ((set_etag_header g h).status_code == 304) = false := by
    simp [set_etag_header, hst]
  have hclE : headerContains (set_etag_header g h).headers "Content-Length"
      = true := by
    unfold set_etag_header
    simpa using (headerContains_setHeader_ne h.headers "Content-Length"
      "Etag" (g h.write_buffer) (by decide)).trans hcl
  simp only [finish, hfin, hw, hcond, hc, Bool.false_eq_true, if_false,
    if_true, h304, hclE]

theorem finish_etag_match_full (g : List String → String) (h : Handler)
    (hfin : h.finished = false) (hw : h.headers_written = false)
    (hcond : (h.status_code == 200 && (h.method == "GET" || h.method == "HEAD")
      && !(headerContains h.headers "Etag")) = true)
    (hc : check_etag_header (set_etag_header g h) = true)
    (ht : h.transforms = []) :
    finish g h none = .ok { h with
      headers := clear_headers_for_304 (setHeader h.headers "Etag"
        (g h.write_buffer)),
      status_code := 304, reason := httpReason 304,
      write_buffer := [], headers_written := true, finished := true,
      request_finished := true,
      writes := h.writes ++ [generate_headers h.version 304 (httpReason 304)
        (clear_headers_for_304 (setHeader h.headers "Etag"
          (g h.write_buffer)))] } := by
  rw [finish_etag_match g h hfin hw hcond hc,
    finishTail_spec { set_etag_header g h with
      write_buffer := [], status_code := 304, reason := httpReason 304,
      headers := clear_headers_for_304 (set_etag_header g h).headers } ht hw]
  simp [set_etag_header, String.append_empty,
    show String.join ([] : List String) = "" from rfl]

theorem finish_etag_nomatch_full (g : List String → String) (h : Handler)
    (hfin : h.finished = false) (hw : h.headers_written = false)
    (hcond : (h.status_code == 200 && (h.method == "GET" || h.method == "HEAD")
      && !(headerContains h.headers "Etag")) = true)
    (hc : check_etag_header (set_etag_header g h) = false)
    (hcl : headerContains h.headers "Content-Length" = false)
    (ht : h.transforms = []) :
    finish g h none = .ok { h with
      headers := setHeader (setHeader h.headers "Etag" (g h.write_buffer))
        "Content-Length" (toString ((h.write_buffer.map String.length).sum)),
      write_buffer := [], headers_written := true, finished := true,
      request_finished := true,
      writes := h.writes ++ [if h.method == "HEAD"
        then generate_headers h.version h.status_code h.reason
          (setHeader (setHeader h.headers "Etag" (g h.write_buffer))
            "Content-Length"
            (toString ((h.write_buffer.map String.length).sum)))
        else generate_headers h.version h.status_code h.reason
          (setHeader (setHeader h.headers "Etag" (g h.write_buffer))
            "Content-Length"
            (toString ((h.write_buffer.map String.length).sum))) ++
          String.join h.write_buffer] } := by
  rw [finish_etag_nomatch g h hfin hw hcond hc hcl,
    finishTail_spec { set_etag_header g h with
      headers := setHeader (set_etag_header g h).headers "Content-Length"
        (toString ((h.write_buffer.map String.length).sum)) } ht hw]
  simp [set_etag_header]

theorem finish_etag_nomatch_cl_full (g : List String → String) (h : Handler)
    (hfin : h.finished = false) (hw : h.headers_written = false)
    (hcond : (h.status_code == 200 && (h.method == "GET" || h.method == "HEAD")
      && !(headerContains h.headers "Etag")) = true)
    (hc : check_etag_header (set_etag_header g h) = false)
    (hcl : headerContains h.headers "Content-Length" = true)
    (ht : h.transforms = []) :
    finish g h none = .ok { h with
      headers := setHeader h.headers "Etag" (g h.write_buffer),
      write_buffer := [], headers_written := true, finished := true,
      request_finished := true,
      writes := h.writes ++ [if h.method == "HEAD"
        then generate_headers h.version h.status_code h.reason
          (setHeader h.headers "Etag" (g h.write_buffer))
        else generate_headers h.version h.status_code h.reason
          (setHeader h.headers "Etag" (g h.write_buffer)) ++
          String.join h.write_buffer] } := by
  rw [finish_etag_nomatch_cl g h hfin hw hcond hc hcl,
    finishTail_spec (set_etag_header g h) ht hw]
  simp [set_etag_header]

theorem finish_no_etag_branch_full (g : List String → String) (h : Handler)
    (hfin : h.finished = false) (hw : h.headers_written = false)
    (hcond : (h.status_code == 200 && (h.method == "GET" || h.method == "HEAD")
      && !(headerContains h.headers "Etag")) = false)
    (h304 : (h.status_code == 304) = false)
    (hcl : headerContains h.headers "Content-Length" = false)
    (ht : h.transforms = []) :
    finish g h none = .ok { h with
      headers := setHeader h.headers "Content-Length"
        (toString ((h.write_buffer.map String.length).sum)),
      write_buffer := [], headers_written := true, finished := true,
      request_finished := true,
      writes := h.writes ++ [if h.method == "HEAD"
        then generate_headers h.version h.status_code h.reason
          (setHeader h.headers "Content-Length"
            (toString ((h.write_buffer.map String.length).sum)))
        else generate_headers h.version h.status_code h.reason
          (setHeader h.headers "Content-Length"
            (toString ((h.write_buffer.map String.length).sum))) ++
          String.join h.write_buffer] } := by
  rw [finish_no_etag_branch g h hfin hw hcond h304 hcl,
    finishTail_spec { h with
      headers := setHeader h.headers "Content-Length"
        (toString ((h.write_buffer.map String.length).sum)) } ht hw]

theorem finish_finished_error (g : List String → String) (h : Handler)
    (c : Option String) (hfin : h.finished = true) :
    finish g h c = .error .DoubleFinishError := by
  simp [finish, hfin]

theorem finish_none_ok_spec {g : List String → String} {h h1 : Handler}
    (hok : finish g h none = .ok h1) :
    h1.finished = true ∧ h1.headers_written = true ∧ h1.write_buffer = [] := by
  simp only [finish] at hok
  repeat' split at hok
  all_goals try exact Except.noConfusion hok
  all_goals exact Except.ok.inj hok ▸
    ⟨finishTail_finished _, finishTail_headers_written _,
      finishTail_write_buffer _⟩

theorem finish_ok_spec {g : List String → String} {h h1 : Handler}
    {c : Option String} (hok : finish g h c = .ok h1) :
    h.finished = false ∧ h1.finished = true ∧ h1.headers_written = true ∧
    h1.write_buffer = [] := by
  have hfin : h.finished = false := by
    by_contra hx
    rw [finish_finished_error g h c (by simpa using hx)] at hok
    exact Except.noConfusion hok
  refine ⟨hfin, ?_⟩
  cases c with
  | none => exact finish_none_ok_spec hok
  | some ch => exact finish_none_ok_spec (finish_some_eq g h ch ▸ hok)

theorem applyOp_ok_spec {g : List String → String} {h h1 : Handler}
    {op : Op} (hok : applyOp g h op = .ok h1) :
    h1.headers_written = true ∧ h1.write_buffer = [] ∧
    h1.finished = (h.finished || op.isFinish) ∧
    (op.isFinish = true → h.finished = false) := by
  cases op with
  | flushOp inc =>
    have heq : h1 = flush h inc := (Except.ok.inj hok).symm
    subst heq
    refine ⟨flush_headers_written_true h inc, flush_write_buffer h inc, ?_, ?_⟩
    · rw [flush_finished]
      cases h.finished <;> rfl
    · intro hx
      exact absurd hx (by simp [Op.isFinish])
  | finishOp c =>
    have hspec := finish_ok_spec (c := c) hok
    refine ⟨hspec.2.2.1, hspec.2.2.2, ?_, fun _ => hspec.1⟩
    rw [hspec.2.1, hspec.1]
    rfl

theorem runOps_spec {g : List String → String} {h : Handler} {ops : List Op}
    {h1 : Handler} (hrun : runOps g h ops = .ok h1) :
    (h.finished = false → ops.countP (fun o => o.isFinish) ≤ 1) ∧
    h1.finished = (h.finished || ops.any (fun o => o.isFinish)) ∧
    (h.headers_written = true → h1.headers_written = true) ∧
    (ops ≠ [] → h1.headers_written = true) ∧
    (h.finished = true → ops.countP (fun o => o.isFinish) = 0) ∧
    (h.finished = true → h.write_buffer = [] →
      h1.write_buffer = h.write_buffer) ∧
    (ops ≠ [] → h1.write_buffer = []) := by
  induction ops generalizing h with
  | nil =>
    have heq : h1 = h := (Except.ok.inj hrun).symm
    subst heq
    refine ⟨fun _ => by simp, by simp, fun hx => hx, fun hx => absurd rfl hx,
      fun _ => by simp, fun _ hb => rfl, fun hx => absurd rfl hx⟩
  | cons op rest ih =>
    rw [runOps] at hrun
    rcases hmid : applyOp g h op with e | hm
    · rw [hmid] at hrun
      exact Except.noConfusion hrun
    · rw [hmid] at hrun
      have hrun2 : runOps g hm rest = .ok h1 := hrun
      have hstep := applyOp_ok_spec hmid
      have ihm := ih hrun2
      constructor
      · intro hfin
        rcases hof : op.isFinish with _ | _
        · have hmf : hm.finished = false := by
            rw [hstep.2.2.1, hfin, hof]; rfl
          have := ihm.1 hmf
          simp [List.countP_cons, hof]
          omega
        · have hmf : hm.finished = true := by
            rw [hstep.2.2.1, hof]
            simp
          have := ihm.2.2.2.2.1 hmf
          simp [List.countP_cons, hof, this]
      constructor
      · rw [ihm.2.1, hstep.2.2.1, List.any_cons]
        cases h.finished <;> cases op.isFinish <;>
          cases rest.any (fun o => o.isFinish) <;> rfl
      constructor
      · intro _
        exact ihm.2.2.1 hstep.1
      constructor
      · intro _
        exact ihm.2.2.1 hstep.1
      constructor
      · intro hfin
        have hof : op.isFinish = false := by
          rcases hx : op.isFinish with _ | _
          · rfl
          · exact absurd hfin (by rw [hstep.2.2.2 hx]; simp)
        have hmf : hm.finished = true := by
          rw [hstep.2.2.1, hfin, hof]; rfl
        simp [List.countP_cons, hof, ihm.2.2.2.2.1 hmf]
      constructor
      · intro hfin hbuf
        have hof : op.isFinish = false := by
          rcases hx : op.isFinish with _ | _
          · rfl
          · exact absurd hfin (by rw [hstep.2.2.2 hx]; simp)
        have hmf : hm.finished = true := by
          rw [hstep.2.2.1, hfin, hof]; rfl
        rw [hbuf]
        rcases hrest : rest with _ | ⟨o2, r2⟩
        · subst hrest
          rw [← (Except.ok.inj hrun2), hstep.2.1]
        · have := ihm.2.2.2.2.2.1 hmf hstep.2.1
          rw [this, hstep.2.1]
      · intro _
        rcases hrest : rest with _ | ⟨o2, r2⟩
        · subst hrest
          rw [← (Except.ok.inj hrun2)]
          exact hstep.2.1
        · exact ihm.2.2.2.2.2.2 (by rw [hrest]; exact List.cons_ne_nil o2 r2)

theorem runOps_append_ok {g : List String → String} {h h1 : Handler}
    {l1 l2 : List Op} (hrun : runOps g h (l1 ++ l2) = .ok h1) :
    ∃ hm, runOps g h l1 = .ok hm ∧ runOps g hm l2 = .ok h1 := by
  induction l1 generalizing h with
  | nil => exact ⟨h, rfl, hrun⟩
  | cons op rest ih =>
    rw [List.cons_append, runOps] at hrun
    rcases hmid : applyOp g h op with e | hm2
    · rw [hmid] at hrun
      exact Except.noConfusion hrun
    · rw [hmid] at hrun
      have hrun2 : runOps g hm2 (rest ++ l2) = .ok h1 := hrun
      obtain ⟨hmm, ha, hb⟩ := ih hrun2
      refine ⟨hmm, ?_, hb⟩
      rw [runOps, hmid]
      exact ha

theorem runOps_prefix_ok {g : List String → String} {h h1 : Handler}
    {ops : List Op} (n : Nat) (hrun : runOps g h ops = .ok h1) :
    ∃ hm, runOps g h (ops.take n) = .ok hm := by
  have hsplit : runOps g h (ops.take n ++ ops.drop n) = .ok h1 := by
    rw [List.take_append_drop]
    exact hrun
  obtain ⟨hm, ha, _⟩ := runOps_append_ok hsplit
  exact ⟨hm, ha⟩

/-! Claim theorems. -/

/-- C1: a second `finish()` after a completed `finish()` raises
`DoubleFinishError`; the error is raised before any buffer append,
header mutation, flush, or transport write of the second call (the
second call returns the error and produces no new handler state). -/
theorem finish_twice_raises (g : List String → String) (h h1 : Handler)
    (c1 c2 : Option String) (hok : finish g h c1 = .ok h1) :
    finish g h1 c2 = .error .DoubleFinishError := by
  have hf := finish_ok_finished hok
  unfold finish
  simp [hf]

/-- Witness for C1 on a fresh GET handler finished twice. -/
theorem finish_twice_raises_witness :
    finish (fun _ => "T") witnessHandler none = .ok witnessFinished ∧
    finish (fun _ => "T") witnessFinished none = .error .DoubleFinishError :=
  ⟨rfl, finish_twice_raises (fun _ => "T") witnessHandler witnessFinished
    none none rfl⟩

/-- C2: for a HEAD request, `flush` never sends a non-empty body: either
nothing is written, or exactly the generated header block is written,
and the (transformed) body chunk is discarded. -/
theorem head_flush_no_body (h : Handler) (inc : Bool) (hm : h.method = "HEAD") :
    (flush h inc).writes = h.writes ∨
    (flush h inc).writes = h.writes ++
      [generate_headers (flush h inc).version (flush h inc).status_code
        (flush h inc).reason (flush h inc).headers] := by
  by_cases hw : h.headers_written
  · left
    rw [flush_of_headers_written h inc hw]
    simp [writeOut, hm]
  · right
    rw [flush_of_headers_unwritten h inc (by simpa using hw)]
    simp [writeOut, hm, generate_headers_ne_empty_str]

/-- Witness for C2: a HEAD handler with buffered content flushes only
the header block. -/
theorem head_flush_no_body_witness :
    ({ witnessHandler with method := "HEAD", write_buffer := ["xyz"] } :
      Handler).method = "HEAD" ∧
    ((flush { witnessHandler with method := "HEAD", write_buffer := ["xyz"] }
        false).writes =
      ({ witnessHandler with method := "HEAD", write_buffer := ["xyz"] } :
        Handler).writes ∨
    (flush { witnessHandler with method := "HEAD", write_buffer := ["xyz"] }
        false).writes =
      ({ witnessHandler with method := "HEAD", write_buffer := ["xyz"] } :
        Handler).writes ++
      [generate_headers
        (flush { witnessHandler with method := "HEAD", write_buffer := ["xyz"] }
          false).version
        (flush { witnessHandler with method := "HEAD", write_buffer := ["xyz"] }
          false).status_code
        (flush { witnessHandler with method := "HEAD", write_buffer := ["xyz"] }
          false).reason
        (flush { witnessHandler with method := "HEAD", write_buffer := ["xyz"] }
          false).headers]) :=
  ⟨rfl, head_flush_no_body
    { witnessHandler with method := "HEAD", write_buffer := ["xyz"] } false rfl⟩

/-- C6: a request whose method is not in the handler supported-method
set makes `_execute` raise HTTP 405, routed to the exception handler,
and `prepare()` is never invoked. -/
theorem unsupported_method_405 (env : ExecEnv)
    (hm : env.supported_methods.contains env.method = false) :
    execute env = [.exceptionHandled (.HTTPError 405)] ∧
    Event.prepareCalled ∉ execute env := by
  have hm' : env.method ∉ env.supported_methods := by simpa using hm
  simp [execute, executeTry, hm']

/-- Witness for C6: a PUT request on a handler supporting only GET and
HEAD. -/
theorem unsupported_method_405_witness :
    (ExecEnv.mk "PUT" ["GET", "HEAD"] false true none
        none).supported_methods.contains
      (ExecEnv.mk "PUT" ["GET", "HEAD"] false true none none).method = false ∧
    (execute (ExecEnv.mk "PUT" ["GET", "HEAD"] false true none none) =
        [.exceptionHandled (.HTTPError 405)] ∧
      Event.prepareCalled ∉
        execute (ExecEnv.mk "PUT" ["GET", "HEAD"] false true none none)) :=
  ⟨by decide, unsupported_method_405 _ (by decide)⟩

/-- C7: a body-bearing request with `xsrf_cookies` enabled and a
missing or mismatched XSRF cookie fails with the XSRF error before the
routing collaborator `root._handle_request` is reached. -/
theorem xsrf_failure_blocks_routing (env : ExecEnv)
    (hb : (["GET", "HEAD", "OPTIONS"].contains env.method) = false)
    (hsup : env.supported_methods.contains env.method = true)
    (hx : env.xsrf_cookies = true) (hv : env.xsrf_valid = false) :
    execute env = [.exceptionHandled .XSRFError] ∧
    Event.handleRequestCalled ∉ execute env := by
  have hb' : ¬env.method = "GET" ∧ ¬env.method = "HEAD" ∧
      ¬env.method = "OPTIONS" := by simpa using hb
  have hsup' : env.method ∈ env.supported_methods := by simpa using hsup
  simp [execute, executeTry, hb'.1, hb'.2.1, hb'.2.2, hsup', hx, hv]

/-- Witness for C7: a POST with XSRF protection on and an invalid
cookie. -/
theorem xsrf_failure_blocks_routing_witness :
    (["GET", "HEAD", "OPTIONS"].contains
      (ExecEnv.mk "POST" ["GET", "HEAD", "POST"] true false none
        none).method) = false ∧
    (execute (ExecEnv.mk "POST" ["GET", "HEAD", "POST"] true false none none) =
        [.exceptionHandled .XSRFError] ∧
      Event.handleRequestCalled ∉
        execute
          (ExecEnv.mk "POST" ["GET", "HEAD", "POST"] true false none none)) :=
  ⟨by decide, xsrf_failure_blocks_routing _ (by decide) (by decide) rfl rfl⟩

/-- C8: every exception raised inside the try block of `_execute` is
caught and routed to `_handle_request_exception`; the run ends with the
exception-handled event and the error does not propagate out. -/
theorem execute_catches_exceptions (env : ExecEnv) (e : Err)
    (hraise : (executeTry env).2 = some e) :
    execute env = (executeTry env).1 ++ [.exceptionHandled e] := by
  unfold execute
  rcases hE : executeTry env with ⟨evs, err⟩
  rw [hE] at hraise
  simp only at hraise
  subst hraise
  simp

/-- Witness for C8: the prepare hook raising a user error is routed to
the exception handler after `prepare()` was invoked. -/
theorem execute_catches_exceptions_witness :
    (executeTry (ExecEnv.mk "GET" ["GET", "HEAD"] false true
        (some (.UserError 7)) none)).2 = some (.UserError 7) ∧
    execute (ExecEnv.mk "GET" ["GET", "HEAD"] false true
        (some (.UserError 7)) none) =
      (executeTry (ExecEnv.mk "GET" ["GET", "HEAD"] false true
        (some (.UserError 7)) none)).1 ++
        [.exceptionHandled (.UserError 7)] :=
  ⟨by decide, execute_catches_exceptions _ _ (by decide)⟩

/-- C10: the rueckenwind `RequestHandler` constructor disables
auto-finish (vanilla tornado defaults to True) and starts unfinished,
so a response completes only through an explicit `finish()` call. -/
theorem new_handler_disables_auto_finish (m v srv d : String)
    (rh : List (String × String)) :
    (requestHandlerNew m v rh srv d).auto_finish = false ∧
    (requestHandlerNew m v rh srv d).finished = false :=
  ⟨rfl, rfl⟩

/-- C3: for a GET or HEAD request with status 200, headers not yet
written, and no ETag already set in the response header mapping (the
caller has not set one), a normal `finish()` sets the ETag header,
whose value is the computed hash of the buffered chunks, before the
header block is generated and written. -/
theorem finish_sets_etag (g : List String → String) (h : Handler)
    (hfin : h.finished = false) (hw : h.headers_written = false)
    (hst : h.status_code = 200) (hm : h.method = "GET" ∨ h.method = "HEAD")
    (he : headerContains h.headers "Etag" = false) (ht : h.transforms = []) :
    ∃ h1, finish g h none = .ok h1 ∧
      headerGet h1.headers "Etag" = some (g h.write_buffer) := by
  have hcond : (h.status_code == 200 && (h.method == "GET" || h.method == "HEAD")
      && !(headerContains h.headers "Etag")) = true := by
    rcases hm with hm | hm <;> simp [hst, hm, he]
  by_cases hc : check_etag_header (set_etag_header g h) = true
  · refine ⟨_, finish_etag_match_full g h hfin hw hcond hc ht, ?_⟩
    dsimp only
    rw [headerGet_clear304_etag, headerGet_setHeader_self]
  · have hc' : check_etag_header (set_etag_header g h) = false := by
      simpa using hc
    by_cases hcl : headerContains h.headers "Content-Length" = true
    · refine ⟨_, finish_etag_nomatch_cl_full g h hfin hw hcond hc' hcl ht, ?_⟩
      dsimp only
      rw [headerGet_setHeader_self]
    · have hcl' : headerContains h.headers "Content-Length" = false := by
        simpa using hcl
      refine ⟨_, finish_etag_nomatch_full g h hfin hw hcond hc' hcl' ht, ?_⟩
      dsimp only
      rw [headerGet_setHeader_ne _ _ _ _ (by decide), headerGet_setHeader_self]

/-- Witness for C3: a fresh GET handler; after `finish` the ETag
header carries the computed hash. -/
theorem finish_sets_etag_witness :
    witnessHandler.finished = false ∧
    witnessHandler.headers_written = false ∧
    witnessHandler.status_code = 200 ∧
    (witnessHandler.method = "GET" ∨ witnessHandler.method = "HEAD") ∧
    headerContains witnessHandler.headers "Etag" = false ∧
    witnessHandler.transforms = [] ∧
    ∃ h1, finish (fun _ => "T") witnessHandler none = .ok h1 ∧
      headerGet h1.headers "Etag" = some "T" :=
  ⟨rfl, rfl, rfl, Or.inl rfl, by decide, rfl,
    finish_sets_etag (fun _ => "T") witnessHandler rfl rfl rfl (Or.inl rfl)
      (by decide) rfl⟩

/-- C4: when the client conditional header matches the ETag computed
by `finish()` (under the ETag-setting preconditions), the final status
is 304, the write buffer is empty at the final flush (the transport
write is exactly the header block, with no body), and all headers
disallowed on 304 responses are absent. -/
theorem etag_match_gives_304 (g : List String → String) (h : Handler)
    (hfin : h.finished = false) (hw : h.headers_written = false)
    (hst : h.status_code = 200) (hm : h.method = "GET" ∨ h.method = "HEAD")
    (he : headerContains h.headers "Etag" = false) (ht : h.transforms = [])
    (hmatch : check_etag_header (set_etag_header g h) = true) :
    ∃ h1, finish g h none = .ok h1 ∧ h1.status_code = 304 ∧
      h1.write_buffer = [] ∧
      (∀ n ∈ headers_304_disallowed, headerContains h1.headers n = false) ∧
      h1.writes = h.writes ++
        [generate_headers h.version 304 "Not Modified" h1.headers] := by
  have hcond : (h.status_code == 200 && (h.method == "GET" || h.method == "HEAD")
      && !(headerContains h.headers "Etag")) = true := by
    rcases hm with hm | hm <;> simp [hst, hm, he]
  refine ⟨_, finish_etag_match_full g h hfin hw hcond hmatch ht, rfl, rfl,
    ?_, ?_⟩
  · intro n hn
    dsimp only
    exact headerContains_clear304 _ n hn
  · dsimp only
    rfl

/-- Witness for C4: a GET handler with If-None-Match matching the
computed ETag. -/
theorem etag_match_gives_304_witness :
    etagMatchHandler.finished = false ∧
    etagMatchHandler.headers_written = false ∧
    etagMatchHandler.status_code = 200 ∧
    (etagMatchHandler.method = "GET" ∨ etagMatchHandler.method = "HEAD") ∧
    headerContains etagMatchHandler.headers "Etag" = false ∧
    etagMatchHandler.transforms = [] ∧
    check_etag_header (set_etag_header (fun _ => "T") etagMatchHandler) =
      true ∧
    (∃ h1, finish (fun _ => "T") etagMatchHandler none = .ok h1 ∧
      h1.status_code = 304 ∧ h1.write_buffer = [] ∧
      (∀ n ∈ headers_304_disallowed, headerContains h1.headers n = false) ∧
      h1.writes = etagMatchHandler.writes ++
        [generate_headers etagMatchHandler.version 304 "Not Modified"
          h1.headers]) :=
  ⟨rfl, rfl, rfl, Or.inl rfl, by decide, rfl, by decide,
    etag_match_gives_304 (fun _ => "T") etagMatchHandler rfl rfl rfl
      (Or.inl rfl) (by decide) rfl (by decide)⟩

/-- C5: when Content-Length was not explicitly set and the response
does not become a 304, the emitted Content-Length header equals the
exact sum of the byte lengths of the chunks buffered at `finish()`
time, and for a non-HEAD request the single transport write is the
generated header block followed by the concatenated body. -/
theorem content_length_sum (g : List String → String) (h : Handler)
    (hfin : h.finished = false) (hw : h.headers_written = false)
    (hcl : headerContains h.headers "Content-Length" = false)
    (h304 : (h.status_code == 304) = false)
    (hnomatch : check_etag_header (set_etag_header g h) = false)
    (ht : h.transforms = []) :
    ∃ h1, finish g h none = .ok h1 ∧
      headerGet h1.headers "Content-Length" =
        some (toString ((h.write_buffer.map String.length).sum)) ∧
      ((h.method == "HEAD") = false →
        h1.writes = h.writes ++ [generate_headers h.version h.status_code
          h.reason h1.headers ++ String.join h.write_buffer]) := by
  by_cases hcond : (h.status_code == 200
      && (h.method == "GET" || h.method == "HEAD")
      && !(headerContains h.headers "Etag")) = true
  · refine ⟨_, finish_etag_nomatch_full g h hfin hw hcond hnomatch hcl ht,
      ?_, ?_⟩
    · dsimp only
      rw [headerGet_setHeader_self]
    · intro hhm
      dsimp only
      rw [if_neg (by simp [hhm])]
  · have hcond' : (h.status_code == 200
        && (h.method == "GET" || h.method == "HEAD")
        && !(headerContains h.headers "Etag")) = false := by
      simpa using hcond
    refine ⟨_, finish_no_etag_branch_full g h hfin hw hcond' h304 hcl ht,
      ?_, ?_⟩
    · dsimp only
      rw [headerGet_setHeader_self]
    · intro hhm
      dsimp only
      rw [if_neg (by simp [hhm])]

/-- Witness for C5, the spec scenario: buffer `["ab", "cd"]` with no
explicit Content-Length produces the header block with Content-Length
4 followed by the body `abcd`. -/
theorem content_length_sum_witness :
    contentLengthHandler.finished = false ∧
    contentLengthHandler.headers_written = false ∧
    headerContains contentLengthHandler.headers "Content-Length" = false ∧
    (contentLengthHandler.status_code == 304) = false ∧
    check_etag_header (set_etag_header (fun _ => "T") contentLengthHandler) =
      false ∧
    contentLengthHandler.transforms = [] ∧
    ∃ h1, finish (fun _ => "T") contentLengthHandler none = .ok h1 ∧
      headerGet h1.headers "Content-Length" =
        some (toString
          ((contentLengthHandler.write_buffer.map String.length).sum)) ∧
      ((contentLengthHandler.method == "HEAD") = false →
        h1.writes = contentLengthHandler.writes ++
          [generate_headers contentLengthHandler.version
            contentLengthHandler.status_code contentLengthHandler.reason
            h1.headers ++ String.join contentLengthHandler.write_buffer]) :=
  ⟨rfl, rfl, by decide, by decide, by decide, rfl,
    content_length_sum (fun _ => "T") contentLengthHandler rfl rfl
      (by decide) (by decide) (by decide) rfl⟩


/-- C9: response-lifecycle state-machine invariants over any successful
sequence of flush/finish operations from a fresh handler state: at most
one finish occurs (a second one raises, aborting the run), the final
`finished` flag is true exactly when a finish occurred, the
`headers_written` flag is true exactly when at least one operation ran
and is already true after any first operation (the first flush happens
during it), and once some prefix reaches a finished state the write
buffer is empty there and stays unchanged (empty) at every later
prefix. -/
theorem response_lifecycle_invariants (g : List String → String)
    (h0 h1 : Handler) (ops : List Op) (i j k : Nat)
    (h0f : h0.finished = false) (h0w : h0.headers_written = false)
    (hrun : runOps g h0 ops = .ok h1)
    (hij : i ≤ j) (hjl : j ≤ ops.length) (hk1 : 1 ≤ k)
    (hkl : k ≤ ops.length) :
    ops.countP (fun o => o.isFinish) ≤ 1 ∧
    h1.finished = ops.any (fun o => o.isFinish) ∧
    h1.headers_written = !ops.isEmpty ∧
    headersWrittenAfter g h0 (ops.take k) = some true ∧
    (finishedAfter g h0 (ops.take i) = some true →
      bufferAfter g h0 (ops.take i) = some [] ∧
      finishedAfter g h0 (ops.take j) = some true ∧
      bufferAfter g h0 (ops.take j) = some []) := by
  have hspec := runOps_spec hrun
  have hopsne : ops ≠ [] := by
    intro hnil
    rw [hnil] at hkl
    simp at hkl
    omega
  refine ⟨hspec.1 h0f, ?_, ?_, ?_, ?_⟩
  · rw [hspec.2.1, h0f, Bool.false_or]
  · rcases hops : ops with _ | ⟨o, rest⟩
    · rw [hops] at hrun
      rw [← (Except.ok.inj hrun), h0w]
      rfl
    · rw [hspec.2.2.2.1 (by rw [hops]; exact List.cons_ne_nil o rest)]
      rfl
  · obtain ⟨hmk, hak⟩ := runOps_prefix_ok k hrun
    have htkne : ops.take k ≠ [] := by
      intro heq
      have hlen : (ops.take k).length = 0 := by rw [heq]; rfl
      rw [List.length_take] at hlen
      rcases Nat.min_eq_zero_iff.mp hlen with hz | hz
      · omega
      · omega
    have := (runOps_spec hak).2.2.2.1 htkne
    rw [headersWrittenAfter, hak]
    exact congrArg some this
  · intro hfi
    obtain ⟨hmi, hai⟩ := runOps_prefix_ok i hrun
    have hmif : hmi.finished = true := by
      rw [finishedAfter, hai] at hfi
      exact Option.some.inj hfi
    have htine : ops.take i ≠ [] := by
      intro heq
      rw [heq] at hai
      rw [← (Except.ok.inj hai), h0f] at hmif
      exact Bool.noConfusion hmif
    have hbufi : hmi.write_buffer = [] := (runOps_spec hai).2.2.2.2.2.2 htine
    obtain ⟨hmj, haj⟩ := runOps_prefix_ok j hrun
    have hdecomp : ops.take j = ops.take i ++ ((ops.take j).drop i) := by
      conv_lhs => rw [← List.take_append_drop i (ops.take j)]
      rw [List.take_take, Nat.min_eq_left hij]
    obtain ⟨hm2, ha2, hb2⟩ := runOps_append_ok (hdecomp ▸ haj)
    rw [hai] at ha2
    cases Except.ok.inj ha2
    have hspecm := runOps_spec hb2
    have hmjf : hmj.finished = true := by
      rw [hspecm.2.1, hmif]
      rfl
    have hmjb : hmj.write_buffer = [] := by
      rw [hspecm.2.2.2.2.2.1 hmif hbufi, hbufi]
    refine ⟨?_, ?_, ?_⟩
    · rw [bufferAfter, hai]
      exact congrArg some hbufi
    · rw [finishedAfter, haj]
      exact congrArg some hmjf
    · rw [bufferAfter, haj]
      exact congrArg some hmjb

/-- Witness for C9 on the run [finish, flush] from a fresh handler,
with prefixes i = 1, j = 2, k = 1. -/
theorem response_lifecycle_invariants_witness :
    witnessHandler.finished = false ∧
    witnessHandler.headers_written = false ∧
    runOps (fun _ => "T") witnessHandler lifecycleOps = .ok lifecycleResult ∧
    (1 : Nat) ≤ 2 ∧ (2 : Nat) ≤ lifecycleOps.length ∧ (1 : Nat) ≤ 1 ∧
    (1 : Nat) ≤ lifecycleOps.length ∧
    (lifecycleOps.countP (fun o => o.isFinish) ≤ 1 ∧
      lifecycleResult.finished = lifecycleOps.any (fun o => o.isFinish) ∧
      lifecycleResult.headers_written = !lifecycleOps.isEmpty ∧
      headersWrittenAfter (fun _ => "T") witnessHandler
        (lifecycleOps.take 1) = some true ∧
      (finishedAfter (fun _ => "T") witnessHandler (lifecycleOps.take 1) =
          some true →
        bufferAfter (fun _ => "T") witnessHandler (lifecycleOps.take 1) =
          some [] ∧
        finishedAfter (fun _ => "T") witnessHandler (lifecycleOps.take 2) =
          some true ∧
        bufferAfter (fun _ => "T") witnessHandler (lifecycleOps.take 2) =
          some [])) :=
  ⟨rfl, rfl, rfl, by decide, by decide, by decide, by decide,
    response_lifecycle_invariants (fun _ => "T") witnessHandler
      lifecycleResult lifecycleOps 1 2 1 rfl rfl rfl (by decide) (by decide)
      (by decide) (by decide)⟩


end Rw
